import Mathlib

set_option maxRecDepth 1000000

/-!
Shallow embedding of the authentication/session subsystem of the Goals
personal-finance backend (src/src/controller/transcationController.js,
auth segment).  Machine numbers are modelled as `Nat`/`Int` with explicit
reduction modulo 2^32 where the source's 32-bit operations require it;
collections are Lean lists in the source's order; the Mongo-backed user
store is a `List User`.  Node's `crypto.createHash('sha256')` collaborator
is embedded as a full executable SHA-256 over byte lists.
-/

namespace GoalsAuth

/-! ### SHA-256 (embedding of the Node `crypto` collaborator used by `hashToken`) -/

/-- Reduce a natural number to a 32-bit word. -/
def w32 (n : Nat) : Nat := n % 4294967296

/-- 32-bit right rotation of a word. -/
def rotr (k n : Nat) : Nat := w32 ((n >>> k) ||| (n <<< (32 - k)))

/-- SHA-256 message-schedule sigma-0. -/
def sSig0 (x : Nat) : Nat := (rotr 7 x) ^^^ (rotr 18 x) ^^^ (x >>> 3)

/-- SHA-256 message-schedule sigma-1. -/
def sSig1 (x : Nat) : Nat := (rotr 17 x) ^^^ (rotr 19 x) ^^^ (x >>> 10)

/-- SHA-256 compression Sigma-0. -/
def bSig0 (x : Nat) : Nat := (rotr 2 x) ^^^ (rotr 13 x) ^^^ (rotr 22 x)

/-- SHA-256 compression Sigma-1. -/
def bSig1 (x : Nat) : Nat := (rotr 6 x) ^^^ (rotr 11 x) ^^^ (rotr 25 x)

/-- SHA-256 choice function; the complement is taken inside 32 bits. -/
def chFn (e f g : Nat) : Nat := (e &&& f) ^^^ ((e ^^^ 4294967295) &&& g)

/-- SHA-256 majority function. -/
def majFn (a b c : Nat) : Nat := (a &&& b) ^^^ (a &&& c) ^^^ (b &&& c)

/-- The 64 SHA-256 round constants of FIPS 180-4, written in decimal. -/
def sha256K : List Nat :=
  [1116352408, 1899447441, 3049323471, 3921009573, 961987163, 1508970993,
   2453635748, 2870763221, 3624381080, 310598401, 607225278, 1426881987,
   1925078388, 2162078206, 2614888103, 3248222580, 3835390401, 4022224774,
   264347078, 604807628, 770255983, 1249150122, 1555081692, 1996064986,
   2554220882, 2821834349, 2952996808, 3210313671, 3336571891, 3584528711,
   113926993, 338241895, 666307205, 773529912, 1294757372, 1396182291,
   1695183700, 1986661051, 2177026350, 2456956037, 2730485921, 2820302411,
   3259730800, 3345764771, 3516065817, 3600352804, 4094571909, 275423344,
   430227734, 506948616, 659060556, 883997877, 958139571, 1322822218,
   1537002063, 1747873779, 1955562222, 2024104815, 2227730452, 2361852424,
   2428436474, 2756734187, 3204031479, 3329325298]

/-- Iterate a function a fixed number of times. -/
def iter {α : Type} (f : α → α) : Nat → α → α
  | 0, x => x
  | n + 1, x => iter f n (f x)

/-- One extension step of the SHA-256 message schedule: append the next word. -/
def scheduleStep (acc : List Nat) : List Nat :=
  let n := acc.length
  let w2 := acc.getD (n - 2) 0
  let w7 := acc.getD (n - 7) 0
  let w15 := acc.getD (n - 15) 0
  let w16 := acc.getD (n - 16) 0
  acc ++ [w32 (sSig1 w2 + w7 + sSig0 w15 + w16)]

/-- The eight 32-bit working registers of SHA-256. -/
structure Sha256State where
  a : Nat
  b : Nat
  c : Nat
  d : Nat
  e : Nat
  f : Nat
  g : Nat
  h : Nat
deriving Repr, DecidableEq

/-- The SHA-256 initial hash value of FIPS 180-4, written in decimal. -/
def sha256Init : Sha256State :=
  ⟨1779033703, 3144134277, 1013904242, 2773480762,
   1359893119, 2600822924, 528734635, 1541459225⟩

/-- One SHA-256 round on the working registers, given (round constant, word). -/
def compressStep (s : Sha256State) (kw : Nat × Nat) : Sha256State :=
  let t1 := w32 (s.h + bSig1 s.e + chFn s.e s.f s.g + kw.1 + kw.2)
  let t2 := w32 (bSig0 s.a + majFn s.a s.b s.c)
  ⟨w32 (t1 + t2), s.a, s.b, s.c, w32 (s.d + t1), s.e, s.f, s.g⟩

/-- Process one 512-bit block (16 words) against a chaining state. -/
def compressBlock (h0 : Sha256State) (ws16 : List Nat) : Sha256State :=
  let ws := iter scheduleStep 48 ws16
  let s := (sha256K.zip ws).foldl compressStep h0
  ⟨w32 (h0.a + s.a), w32 (h0.b + s.b), w32 (h0.c + s.c), w32 (h0.d + s.d),
   w32 (h0.e + s.e), w32 (h0.f + s.f), w32 (h0.g + s.g), w32 (h0.h + s.h)⟩

/-- Big-endian 8-byte encoding of a 64-bit length. -/
def u64Bytes (n : Nat) : List Nat :=
  [(n >>> 56) % 256, (n >>> 48) % 256, (n >>> 40) % 256, (n >>> 32) % 256,
   (n >>> 24) % 256, (n >>> 16) % 256, (n >>> 8) % 256, n % 256]

/-- SHA-256 padding: append 0x80, zeros to 56 mod 64, then the bit length. -/
def padMessage (msg : List Nat) : List Nat :=
  msg ++ [128] ++ List.replicate ((119 - msg.length % 64) % 64) 0
      ++ u64Bytes (8 * msg.length)

/-- Group bytes into big-endian 32-bit words. -/
def bytesToWords : List Nat → List Nat
  | b0 :: b1 :: b2 :: b3 :: rest =>
      ((b0 <<< 24) ||| (b1 <<< 16) ||| (b2 <<< 8) ||| b3) :: bytesToWords rest
  | _ => []

/-- Split a byte list into `n` chunks of 64 bytes. -/
def chunk64 : Nat → List Nat → List (List Nat)
  | 0, _ => []
  | n + 1, bs => bs.take 64 :: chunk64 n (bs.drop 64)

/-- Big-endian bytes of a 32-bit word. -/
def wordBytes (n : Nat) : List Nat :=
  [(n >>> 24) % 256, (n >>> 16) % 256, (n >>> 8) % 256, n % 256]

/-- SHA-256 digest (32 bytes) of a byte-list message. -/
def sha256Bytes (msg : List Nat) : List Nat :=
  let padded := padMessage msg
  let fin := (chunk64 (padded.length / 64) padded).foldl
      (fun st b => compressBlock st (bytesToWords b)) sha256Init
  wordBytes fin.a ++ wordBytes fin.b ++ wordBytes fin.c ++ wordBytes fin.d ++
  wordBytes fin.e ++ wordBytes fin.f ++ wordBytes fin.g ++ wordBytes fin.h

/-! ### Hex encoding and token values -/

/-- Lower-case hex digit for a value below 16 (as `Buffer.toString('hex')`). -/
def hexDigit (n : Nat) : Char :=
  if n < 10 then Char.ofNat (48 + n) else Char.ofNat (87 + n)

/-- Two lower-case hex characters of one byte. -/
def byteHex (b : Nat) : List Char := [hexDigit (b / 16), hexDigit (b % 16)]

/-- Lower-case hex string of a byte list. -/
def bytesToHex (bs : List Nat) : String := String.mk (bs.flatMap byteHex)

/-- UTF-8 encoding of one code point. -/
def utf8Bytes (c : Nat) : List Nat :=
  if c < 128 then [c]
  else if c < 2048 then [192 + c / 64, 128 + c % 64]
  else if c < 65536 then [224 + c / 4096, 128 + (c / 64) % 64, 128 + c % 64]
  else [240 + c / 262144, 128 + (c / 4096) % 64, 128 + (c / 64) % 64, 128 + c % 64]

/-- UTF-8 bytes of a string (token strings in this system are ASCII hex). -/
def strBytes (s : String) : List Nat := s.data.flatMap (fun c => utf8Bytes c.toNat)

/-- `hashToken`: SHA-256 hex digest of a token string
(`crypto.createHash('sha256').update(token).digest('hex')`). -/
def hashToken (token : String) : String := bytesToHex (sha256Bytes (strBytes token))

/-- `generateRefreshTokenValue`: hex encoding of the 40 random bytes drawn by
`crypto.randomBytes(40)`; the randomness source is passed in explicitly. -/
def generateRefreshTokenValue (randBytes : List Nat) : String := bytesToHex randBytes

/-! ### Data model

`RefreshTokenEntry` documents (`token` digest, `expiresAt` as the millisecond
timestamp `Date#getTime` returns) and the `User` document.  `comparePassword`
is an external bcrypt collaborator; it is embedded as direct comparison of the
stored credential with the submitted one, which preserves exactly the
match/no-match outcome the orchestrator branches on. -/

/-- One stored refresh-token document: `{ token: <sha256 hex>, expiresAt }`. -/
structure TokenEntry where
  token : String
  expiresAt : Int
deriving Repr, DecidableEq

/-- A user document; only the fields the auth subsystem reads or writes. -/
structure User where
  id : Nat
  name : String
  email : String
  password : String
  refreshTokens : List TokenEntry
deriving Repr, DecidableEq

/-- `MAX_REFRESH_TOKENS` (default of `JWT_REFRESH_MAX_TOKENS`). -/
def MAX_REFRESH_TOKENS : Nat := 5

/-- `REFRESH_TOKEN_TTL_DAYS` (default of `JWT_REFRESH_DAYS`). -/
def REFRESH_TOKEN_TTL_DAYS : Int := 30

/-- `DAY_IN_MS`. -/
def DAY_IN_MS : Int := 24 * 60 * 60 * 1000

/-- `signAccessToken`: the external `jwt.sign` collaborator, embedded as an
encoding of the signed payload's user id; the claims under proof depend only
on the same string reaching both response fields. -/
def signAccessToken (userId : Nat) : String := "signed-jwt-" ++ toString userId

/-! ### Refresh Token Store operations (pure transforms on the collection) -/

/-- `pruneExpiredTokens`: keep entries with `entry.expiresAt.getTime() > now`. -/
def pruneExpiredTokens (now : Int) (ts : List TokenEntry) : List TokenEntry :=
  ts.filter (fun e => now < e.expiresAt)

/-- `enforceTokenLimit`: if over `max`, `splice(0, excess)` the oldest ones. -/
def enforceTokenLimit (max : Nat) (ts : List TokenEntry) : List TokenEntry :=
  if ts.length ≤ max then ts
  else ts.drop (ts.length - max)

/-- `attachRefreshToken`: push `{ token: hashToken(value), expiresAt: now + ttl }`. -/
def attachRefreshToken (now : Int) (refreshTokenValue : String)
    (ts : List TokenEntry) : List TokenEntry :=
  ts ++ [⟨hashToken refreshTokenValue, now + REFRESH_TOKEN_TTL_DAYS * DAY_IN_MS⟩]

/-- `removeRefreshToken`: filter out every entry whose `token` equals the
digest, returning the new collection and whether the length changed. -/
def removeRefreshToken (hashedToken : String) (ts : List TokenEntry) :
    List TokenEntry × Bool :=
  let kept := ts.filter (fun e => !(e.token == hashedToken))
  (kept, ts.length != kept.length)

/-- The access/refresh pair returned by `issueTokensForUser`. -/
structure TokenPair where
  accessToken : String
  refreshToken : String
deriving Repr, DecidableEq

/-- `issueTokensForUser`: prune, enforce the limit, generate and attach a new
refresh token, and return the updated user with the token pair.  The bytes the
issuance draws from `crypto.randomBytes(40)` are passed in explicitly. -/
def issueTokensForUser (now : Int) (randBytes : List Nat) (user : User) :
    User × TokenPair :=
  let pruned := pruneExpiredTokens now user.refreshTokens
  let limited := enforceTokenLimit MAX_REFRESH_TOKENS pruned
  let refreshToken := generateRefreshTokenValue randBytes
  let attached := attachRefreshToken now refreshToken limited
  ({ user with refreshTokens := attached },
   ⟨signAccessToken user.id, refreshToken⟩)

/-! ### Auth Orchestrator over the persisted user store -/

/-- The JSON body and status the orchestrator replies with; token fields are
`none` on responses that do not carry them. -/
structure HttpResponse where
  status : Nat
  message : String
  token : Option String
  accessToken : Option String
  refreshToken : Option String
  userId : Option Nat
deriving Repr, DecidableEq

/-- A response carrying only a status and a message. -/
def msgResponse (status : Nat) (message : String) : HttpResponse :=
  ⟨status, message, none, none, none, none⟩

/-- `respondWithTokens`: the token envelope, with the legacy `token` field and
`accessToken` both set from the pair's access token. -/
def respondWithTokens (status : Nat) (message : String) (user : User)
    (tokens : TokenPair) : HttpResponse :=
  ⟨status, message, some tokens.accessToken, some tokens.accessToken,
   some tokens.refreshToken, some user.id⟩

/-- JavaScript falsiness of an optional request string (`!value`). -/
def strFalsy : Option String → Bool
  | none => true
  | some s => s == ""

/-- `User.findOne({ 'refreshTokens.token': hashedToken })`: first user holding
an entry with that digest. -/
def findUserByTokenHash (db : List User) (hashed : String) : Option User :=
  db.find? (fun u => u.refreshTokens.any (fun e => e.token == hashed))

/-- `user.save()`: persist the user document over the store (documents are
identified by their id). -/
def saveUser (db : List User) (user : User) : List User :=
  db.map (fun v => if v.id == user.id then user else v)

/-- `POST /api/auth/signup` (token-issuing variant): validate, reject duplicate
email, create the user and issue a first token pair.  `newId` models the id
the store assigns to the created document. -/
def signup (now : Int) (randBytes : List Nat) (newId : Nat) (db : List User)
    (name email password : Option String) : List User × HttpResponse :=
  if strFalsy name || strFalsy email || strFalsy password then
    (db, msgResponse 400 "Name, email and password are required")
  else if db.any (fun u => u.email == email.getD "") then
    (db, msgResponse 409 "Email already in use")
  else
    let user : User :=
      ⟨newId, (name.getD "").trim, email.getD "", password.getD "", []⟩
    let issued := issueTokensForUser now randBytes user
    (db ++ [issued.1],
     respondWithTokens 201 "User created successfully" issued.1 issued.2)

/-- `POST /api/auth/login` (token-issuing variant): find by email, verify the
credential, issue a token pair and persist. -/
def login (now : Int) (randBytes : List Nat) (db : List User)
    (email password : Option String) : List User × HttpResponse :=
  if strFalsy email || strFalsy password then
    (db, msgResponse 400 "Email and password are required")
  else
    match db.find? (fun u => u.email == email.getD "") with
    | none => (db, msgResponse 401 "Invalid credentials")
    | some user =>
      if user.password == password.getD "" then
        let issued := issueTokensForUser now randBytes user
        (saveUser db issued.1,
         respondWithTokens 200 "Login successful" issued.1 issued.2)
      else (db, msgResponse 401 "Invalid credentials")

/-- `POST /api/auth/refresh`: hash the submitted value, find the holder, check
expiry; on an expired (or vanished) match remove and persist with 401, on a
live match rotate the entry and issue a fresh pair. -/
def refreshAccessToken (now : Int) (randBytes : List Nat) (db : List User)
    (refreshToken : Option String) : List User × HttpResponse :=
  if strFalsy refreshToken then
    (db, msgResponse 400 "Refresh token is required")
  else
    let hashedToken := hashToken (refreshToken.getD "")
    match findUserByTokenHash db hashedToken with
    | none => (db, msgResponse 401 "Invalid refresh token")
    | some user =>
      match user.refreshTokens.find? (fun e => e.token == hashedToken) with
      | none =>
        let cleaned :=
          { user with refreshTokens := (removeRefreshToken hashedToken user.refreshTokens).1 }
        (saveUser db cleaned, msgResponse 401 "Refresh token expired")
      | some storedToken =>
        if storedToken.expiresAt ≤ now then
          let cleaned :=
            { user with refreshTokens := (removeRefreshToken hashedToken user.refreshTokens).1 }
          (saveUser db cleaned, msgResponse 401 "Refresh token expired")
        else
          let rotated :=
            { user with refreshTokens := (removeRefreshToken hashedToken user.refreshTokens).1 }
          let issued := issueTokensForUser now randBytes rotated
          (saveUser db issued.1,
           respondWithTokens 200 "Token refreshed" issued.1 issued.2)

/-- `POST /api/auth/logout`: remove the matching entry if any user holds it;
always answer 200. -/
def logout (db : List User) (refreshToken : Option String) :
    List User × HttpResponse :=
  if strFalsy refreshToken then
    (db, msgResponse 400 "Refresh token is required")
  else
    let hashedToken := hashToken (refreshToken.getD "")
    match findUserByTokenHash db hashedToken with
    | none => (db, msgResponse 200 "Logged out successfully")
    | some user =>
      let removed := removeRefreshToken hashedToken user.refreshTokens
      let db2 :=
        if removed.2 then saveUser db { user with refreshTokens := removed.1 } else db
      (db2, msgResponse 200 "Logged out successfully")

/-- A sequence of issuances (logins) against one user's document, each drawing
its own random bytes. -/
def issueN (now : Int) (rands : List (List Nat)) (user : User) : User :=
  rands.foldl (fun u r => (issueTokensForUser now r u).1) user

/-- Modelled from the spec: `remove(collection, hash)` exactly as §4.2 words
it — "Removes the first entry matching `hash`; returns whether a match
existed" — for comparison against the source's `removeRefreshToken`, which
filters out every matching entry. -/
def removeFirstSpec (hashed : String) : List TokenEntry → List TokenEntry × Bool
  | [] => ([], false)
  | e :: rest =>
    if e.token == hashed then (rest, true)
    else
      let r := removeFirstSpec hashed rest
      (e :: r.1, r.2)

/-! ### Helper lemmas -/

/-- Hex expansion doubles the byte count. -/
theorem length_flatMap_byteHex (bs : List Nat) :
    (bs.flatMap byteHex).length = 2 * bs.length := by
  induction bs with
  | nil => simp
  | cons b rest ih => simp [byteHex, ih]; omega

/-- A hex string is twice as long as its byte list. -/
theorem bytesToHex_length (bs : List Nat) :
    (bytesToHex bs).length = 2 * bs.length :=
  length_flatMap_byteHex bs

/-- A SHA-256 digest is 32 bytes. -/
theorem sha256Bytes_length (msg : List Nat) : (sha256Bytes msg).length = 32 := by
  simp [sha256Bytes, wordBytes]

/-- `hashToken` always produces a 64-character digest string. -/
theorem hashToken_length (s : String) : (hashToken s).length = 64 := by
  show (bytesToHex (sha256Bytes (strBytes s))).length = 64
  rw [bytesToHex_length, sha256Bytes_length]

/-- Whether any user in the store holds an entry with the given digest. -/
def dbHasHash (db : List User) (hashed : String) : Bool :=
  db.any (fun u => u.refreshTokens.any (fun e => e.token == hashed))

/-- Pruning only keeps entries of the input collection. -/
theorem mem_pruneExpiredTokens {now : Int} {ts : List TokenEntry} {e : TokenEntry}
    (h : e ∈ pruneExpiredTokens now ts) : e ∈ ts :=
  (List.mem_filter.1 h).1

/-- Limit enforcement only keeps entries of the input collection. -/
theorem mem_enforceTokenLimit {m : Nat} {ts : List TokenEntry} {e : TokenEntry}
    (h : e ∈ enforceTokenLimit m ts) : e ∈ ts := by
  unfold enforceTokenLimit at h
  split at h
  · exact h
  · exact List.mem_of_mem_drop h

/-- No entry surviving `removeRefreshToken` carries the removed digest. -/
theorem removeRefreshToken_token_ne {hashed : String} {ts : List TokenEntry}
    {e : TokenEntry} (h : e ∈ (removeRefreshToken hashed ts).1) :
    e.token ≠ hashed := by
  have h2 := (List.mem_filter.1 h).2
  simpa using h2

/-- If some entry matches, `removeRefreshToken` reports a removal. -/
theorem removeRefreshToken_snd_true {hashed : String} {ts : List TokenEntry}
    (h : ∃ e ∈ ts, e.token = hashed) : (removeRefreshToken hashed ts).2 = true := by
  show (ts.length != (ts.filter fun e => !(e.token == hashed)).length) = true
  rw [bne_iff_ne]
  rcases h with ⟨e, he, htok⟩
  intro heq
  have hall := List.filter_length_eq_length.1 heq.symm
  have := hall e he
  simp [htok] at this

/-- The user `issueTokensForUser` returns keeps the same id. -/
theorem issueTokensForUser_id (now : Int) (rand : List Nat) (u : User) :
    ((issueTokensForUser now rand u).1).id = u.id := rfl

/-- Issuance never introduces a given digest, provided the user's collection
lacked it and the freshly drawn token does not hash to it. -/
theorem issueTokensForUser_token_ne (now : Int) {rand : List Nat} {u : User}
    {hashed : String}
    (hu : ∀ e ∈ u.refreshTokens, e.token ≠ hashed)
    (hfresh : hashToken (generateRefreshTokenValue rand) ≠ hashed) :
    ∀ e ∈ ((issueTokensForUser now rand u).1).refreshTokens, e.token ≠ hashed := by
  intro e he
  have he2 : e ∈ enforceTokenLimit MAX_REFRESH_TOKENS
      (pruneExpiredTokens now u.refreshTokens) ++
      [(⟨hashToken (generateRefreshTokenValue rand),
         now + REFRESH_TOKEN_TTL_DAYS * DAY_IN_MS⟩ : TokenEntry)] := he
  rcases List.mem_append.1 he2 with h1 | h2
  · exact hu e (mem_pruneExpiredTokens (mem_enforceTokenLimit h1))
  · rw [List.mem_singleton.1 h2]
    exact hfresh

/-- Persisting a digest-free user into a store whose other documents are also
digest-free yields a digest-free store. -/
theorem saveUser_token_ne {db : List User} {u : User} {hashed : String}
    (hothers : ∀ v ∈ db, v.id ≠ u.id → ∀ e ∈ v.refreshTokens, e.token ≠ hashed)
    (hu : ∀ e ∈ u.refreshTokens, e.token ≠ hashed) :
    ∀ v ∈ saveUser db u, ∀ e ∈ v.refreshTokens, e.token ≠ hashed := by
  intro v hv
  simp only [saveUser, List.mem_map] at hv
  rcases hv with ⟨w, hw, rfl⟩
  by_cases hid : w.id = u.id
  · simp [hid]
    exact hu
  · simp [hid]
    exact hothers w hw hid

/-- The store misses a digest exactly when no document's collection holds it. -/
theorem dbHasHash_eq_false_iff {db : List User} {hashed : String} :
    dbHasHash db hashed = false ↔
      ∀ v ∈ db, ∀ e ∈ v.refreshTokens, e.token ≠ hashed := by
  simp [dbHasHash]

/-- A digest-free store has no user for `findUserByTokenHash` to find. -/
theorem findUserByTokenHash_eq_none {db : List User} {hashed : String}
    (h : ∀ v ∈ db, ∀ e ∈ v.refreshTokens, e.token ≠ hashed) :
    findUserByTokenHash db hashed = none := by
  rw [findUserByTokenHash, List.find?_eq_none]
  intro u hu
  simp only [List.any_eq_true, not_exists]
  intro e
  simp only [not_and]
  intro he
  simpa using h u hu e he

/-- Reduction of `/refresh` when no stored entry matches the digest. -/
theorem refreshAccessToken_no_match (now : Int) (rand : List Nat) (db : List User)
    (t : String) (ht : t ≠ "")
    (hno : ∀ v ∈ db, ∀ e ∈ v.refreshTokens, e.token ≠ hashToken t) :
    refreshAccessToken now rand db (some t) =
      (db, msgResponse 401 "Invalid refresh token") := by
  have hcond : ¬(strFalsy (some t) = true) := by simp [strFalsy, ht]
  rw [refreshAccessToken, if_neg hcond]
  simp only [Option.getD_some]
  rw [findUserByTokenHash_eq_none hno]

/-- Reduction of `/refresh` on a live (non-expired) match: rotate and issue. -/
theorem refreshAccessToken_success (now : Int) (rand : List Nat) (db : List User)
    (t : String) (u : User) (en : TokenEntry) (ht : t ≠ "")
    (hfind : findUserByTokenHash db (hashToken t) = some u)
    (hentry : u.refreshTokens.find? (fun e => e.token == hashToken t) = some en)
    (hlive : now < en.expiresAt) :
    refreshAccessToken now rand db (some t) =
      (saveUser db (issueTokensForUser now rand
          { u with refreshTokens := (removeRefreshToken (hashToken t) u.refreshTokens).1 }).1,
       respondWithTokens 200 "Token refreshed"
         (issueTokensForUser now rand
           { u with refreshTokens := (removeRefreshToken (hashToken t) u.refreshTokens).1 }).1
         (issueTokensForUser now rand
           { u with refreshTokens := (removeRefreshToken (hashToken t) u.refreshTokens).1 }).2) := by
  have hcond : ¬(strFalsy (some t) = true) := by simp [strFalsy, ht]
  have hnle : ¬ en.expiresAt ≤ now := not_le.mpr hlive
  rw [refreshAccessToken, if_neg hcond]
  simp only [Option.getD_some, hfind, hentry]
  rw [if_neg hnle]

/-- Reduction of `/refresh` on an expired match: remove, persist, 401. -/
theorem refreshAccessToken_expired (now : Int) (rand : List Nat) (db : List User)
    (t : String) (u : User) (en : TokenEntry) (ht : t ≠ "")
    (hfind : findUserByTokenHash db (hashToken t) = some u)
    (hentry : u.refreshTokens.find? (fun e => e.token == hashToken t) = some en)
    (hexp : en.expiresAt ≤ now) :
    refreshAccessToken now rand db (some t) =
      (saveUser db
        { u with refreshTokens := (removeRefreshToken (hashToken t) u.refreshTokens).1 },
       msgResponse 401 "Refresh token expired") := by
  have hcond : ¬(strFalsy (some t) = true) := by simp [strFalsy, ht]
  rw [refreshAccessToken, if_neg hcond]
  simp only [Option.getD_some, hfind, hentry]
  rw [if_pos hexp]

/-- Reduction of `/logout` when no user holds the digest. -/
theorem logout_no_match (db : List User) (t : String) (ht : t ≠ "")
    (hnone : findUserByTokenHash db (hashToken t) = none) :
    logout db (some t) = (db, msgResponse 200 "Logged out successfully") := by
  have hcond : ¬(strFalsy (some t) = true) := by simp [strFalsy, ht]
  rw [logout, if_neg hcond]
  simp only [Option.getD_some, hnone]

/-- Reduction of `/logout` when a user holds the digest. -/
theorem logout_found (db : List User) (t : String) (u : User) (ht : t ≠ "")
    (hfind : findUserByTokenHash db (hashToken t) = some u) :
    logout db (some t) =
      (if (removeRefreshToken (hashToken t) u.refreshTokens).2 then
          saveUser db
            { u with refreshTokens := (removeRefreshToken (hashToken t) u.refreshTokens).1 }
        else db,
       msgResponse 200 "Logged out successfully") := by
  have hcond : ¬(strFalsy (some t) = true) := by simp [strFalsy, ht]
  rw [logout, if_neg hcond]
  simp only [Option.getD_some, hfind]

/-! ### Claim theorems -/

/-- C7: `pruneExpired(collection, now)` removes exactly the entries whose
`expiresAt` is at or before `now` (equality included), keeps every entry whose
`expiresAt` is strictly after `now`, and preserves the relative order of the
kept entries (the result is a sublist of the input). -/
theorem c7_pruneExpired_exact (now : Int) (ts : List TokenEntry) :
    List.Sublist (pruneExpiredTokens now ts) ts ∧
    (∀ e ∈ ts, e ∈ pruneExpiredTokens now ts ↔ now < e.expiresAt) ∧
    (∀ e ∈ ts, e.expiresAt ≤ now → e ∉ pruneExpiredTokens now ts) ∧
    (∀ e ∈ pruneExpiredTokens now ts, now < e.expiresAt) := by
  refine ⟨List.filter_sublist ts, fun e he => ?_, fun e he hle => ?_, fun e he => ?_⟩
  · simp [pruneExpiredTokens, List.mem_filter, he]
  · simp [pruneExpiredTokens, List.mem_filter]
    intro _; omega
  · simp [pruneExpiredTokens, List.mem_filter] at he
    exact he.2

/-- C7 witness: the characterization evaluated on a concrete collection where
one entry expires exactly at `now`, one before, one after. -/
theorem c7_witness :
    List.Sublist (pruneExpiredTokens 5 [⟨"a", 5⟩, ⟨"b", 3⟩, ⟨"c", 9⟩])
        [⟨"a", 5⟩, ⟨"b", 3⟩, ⟨"c", 9⟩] ∧
    (∀ e ∈ [(⟨"a", 5⟩ : TokenEntry), ⟨"b", 3⟩, ⟨"c", 9⟩],
        e ∈ pruneExpiredTokens 5 [⟨"a", 5⟩, ⟨"b", 3⟩, ⟨"c", 9⟩] ↔ 5 < e.expiresAt) ∧
    (∀ e ∈ [(⟨"a", 5⟩ : TokenEntry), ⟨"b", 3⟩, ⟨"c", 9⟩],
        e.expiresAt ≤ 5 → e ∉ pruneExpiredTokens 5 [⟨"a", 5⟩, ⟨"b", 3⟩, ⟨"c", 9⟩]) ∧
    (∀ e ∈ pruneExpiredTokens 5 [⟨"a", 5⟩, ⟨"b", 3⟩, ⟨"c", 9⟩], 5 < e.expiresAt) :=
  c7_pruneExpired_exact 5 [⟨"a", 5⟩, ⟨"b", 3⟩, ⟨"c", 9⟩]

/-- C8: `enforceLimit(collection, maxSize)` leaves the collection unchanged
when `length ≤ maxSize`, and otherwise drops exactly the oldest
`length - maxSize` entries from the front, leaving the remaining suffix (in
order) of length exactly `maxSize`. -/
theorem c8_enforceLimit_exact (maxSize : Nat) (ts : List TokenEntry) :
    (ts.length ≤ maxSize → enforceTokenLimit maxSize ts = ts) ∧
    (maxSize < ts.length →
      enforceTokenLimit maxSize ts = ts.drop (ts.length - maxSize) ∧
      (enforceTokenLimit maxSize ts).length = maxSize ∧
      ts.take (ts.length - maxSize) ++ enforceTokenLimit maxSize ts = ts ∧
      List.IsSuffix (enforceTokenLimit maxSize ts) ts) := by
  constructor
  · intro h; simp [enforceTokenLimit, h]
  · intro h
    have hnot : ¬ ts.length ≤ maxSize := by omega
    refine ⟨by simp [enforceTokenLimit, hnot], ?_, ?_, ?_⟩
    · simp [enforceTokenLimit, hnot, List.length_drop]; omega
    · simp [enforceTokenLimit, hnot, List.take_append_drop]
    · simp only [enforceTokenLimit, hnot, if_false]
      exact List.drop_suffix _ _

/-- C8 witness: a four-entry collection bounded to two keeps exactly the two
newest entries, in order. -/
theorem c8_witness :
    (([(⟨"a", 1⟩ : TokenEntry), ⟨"b", 2⟩, ⟨"c", 3⟩, ⟨"d", 4⟩] : List TokenEntry).length ≤ 9 →
        enforceTokenLimit 9 [⟨"a", 1⟩, ⟨"b", 2⟩, ⟨"c", 3⟩, ⟨"d", 4⟩] =
          [⟨"a", 1⟩, ⟨"b", 2⟩, ⟨"c", 3⟩, ⟨"d", 4⟩]) ∧
    (2 < ([(⟨"a", 1⟩ : TokenEntry), ⟨"b", 2⟩, ⟨"c", 3⟩, ⟨"d", 4⟩] : List TokenEntry).length ∧
      enforceTokenLimit 2 [⟨"a", 1⟩, ⟨"b", 2⟩, ⟨"c", 3⟩, ⟨"d", 4⟩] = [⟨"c", 3⟩, ⟨"d", 4⟩] ∧
      (enforceTokenLimit 2 [⟨"a", 1⟩, ⟨"b", 2⟩, ⟨"c", 3⟩, ⟨"d", 4⟩]).length = 2) := by
  refine ⟨(c8_enforceLimit_exact 9 _).1, by decide, ?_, ?_⟩
  · have h := ((c8_enforceLimit_exact 2 [⟨"a", 1⟩, ⟨"b", 2⟩, ⟨"c", 3⟩, ⟨"d", 4⟩]).2 (by decide)).1
    rw [h]; decide
  · exact ((c8_enforceLimit_exact 2 [⟨"a", 1⟩, ⟨"b", 2⟩, ⟨"c", 3⟩, ⟨"d", 4⟩]).2 (by decide)).2.1

/-- C6 counterexample: on a collection holding two entries with the same
digest, the source's `removeRefreshToken` removes both — it does not leave the
later duplicate in place as the claim states. -/
theorem c6_counterexample :
    (removeRefreshToken "h" [⟨"h", 1⟩, ⟨"h", 2⟩]).1 = [] ∧
    removeFirstSpec "h" [⟨"h", 1⟩, ⟨"h", 2⟩] = ([⟨"h", 2⟩], true) ∧
    (removeRefreshToken "h" [⟨"h", 1⟩, ⟨"h", 2⟩]).1 ≠
      (removeFirstSpec "h" [⟨"h", 1⟩, ⟨"h", 2⟩]).1 := by decide

/-- C6 (amended): `remove(collection, hash)` removes every entry whose stored
digest equals `hash` (all duplicates, not only the first), preserves the order
of the remaining entries, and returns true iff a match existed; with no match
the collection is returned unchanged with false. -/
theorem c6_remove_all_matches (hashed : String) (ts : List TokenEntry) :
    (removeRefreshToken hashed ts).1 = ts.filter (fun e => !(e.token == hashed)) ∧
    (∀ e ∈ (removeRefreshToken hashed ts).1, e.token ≠ hashed) ∧
    List.Sublist (removeRefreshToken hashed ts).1 ts ∧
    ((removeRefreshToken hashed ts).2 = true ↔ ∃ e ∈ ts, e.token = hashed) ∧
    ((∀ e ∈ ts, e.token ≠ hashed) → removeRefreshToken hashed ts = (ts, false)) := by
  refine ⟨rfl, fun e he => ?_, List.filter_sublist ts, ?_, fun hno => ?_⟩
  · simp [removeRefreshToken, List.mem_filter] at he
    exact he.2
  · show (ts.length != (ts.filter fun e => !(e.token == hashed)).length) = true ↔ _
    rw [bne_iff_ne]
    constructor
    · intro hne
      by_contra hno
      push_neg at hno
      have hall : ∀ e ∈ ts, (!(e.token == hashed)) = true := by
        intro e he
        simpa using hno e he
      exact hne (by rw [List.filter_length_eq_length.2 hall])
    · rintro ⟨e, he, htok⟩ heq
      have hall := List.filter_length_eq_length.1 heq.symm
      have := hall e he
      simp [htok] at this
  · have hall : ∀ e ∈ ts, (!(e.token == hashed)) = true := by
      intro e he; simpa using hno e he
    have hfix : ts.filter (fun e => !(e.token == hashed)) = ts :=
      List.filter_eq_self.2 hall
    simp [removeRefreshToken, hfix]

/-- C6 (amended) witness: the characterization evaluated on a concrete
collection with one matching and one non-matching entry. -/
theorem c6_remove_witness :
    (removeRefreshToken "x" [⟨"x", 1⟩, ⟨"y", 2⟩]).1 =
        List.filter (fun e => !(e.token == "x")) [⟨"x", 1⟩, ⟨"y", 2⟩] ∧
    (∀ e ∈ (removeRefreshToken "x" [⟨"x", 1⟩, ⟨"y", 2⟩]).1, e.token ≠ "x") ∧
    List.Sublist (removeRefreshToken "x" [⟨"x", 1⟩, ⟨"y", 2⟩]).1 [⟨"x", 1⟩, ⟨"y", 2⟩] ∧
    ((removeRefreshToken "x" [⟨"x", 1⟩, ⟨"y", 2⟩]).2 = true ↔
        ∃ e ∈ [(⟨"x", 1⟩ : TokenEntry), ⟨"y", 2⟩], e.token = "x") ∧
    ((∀ e ∈ [(⟨"x", 1⟩ : TokenEntry), ⟨"y", 2⟩], e.token ≠ "x") →
        removeRefreshToken "x" [⟨"x", 1⟩, ⟨"y", 2⟩] = ([⟨"x", 1⟩, ⟨"y", 2⟩], false)) :=
  c6_remove_all_matches "x" [⟨"x", 1⟩, ⟨"y", 2⟩]

/-- C9: the raw refresh-token value is the hex of 40 random bytes (80
characters); what `attachRefreshToken` stores for it is its SHA-256 hex digest
(64 characters), which therefore never equals the raw value, and the raw value
itself is not what is appended to the collection. -/
theorem c9_stored_digest_never_raw (randBytes : List Nat) (now : Int)
    (ts : List TokenEntry) (hlen : randBytes.length = 40) :
    (generateRefreshTokenValue randBytes).length = 80 ∧
    (hashToken (generateRefreshTokenValue randBytes)).length = 64 ∧
    hashToken (generateRefreshTokenValue randBytes) ≠ generateRefreshTokenValue randBytes ∧
    attachRefreshToken now (generateRefreshTokenValue randBytes) ts =
      ts ++ [⟨hashToken (generateRefreshTokenValue randBytes),
              now + REFRESH_TOKEN_TTL_DAYS * DAY_IN_MS⟩] := by
  have hraw : (generateRefreshTokenValue randBytes).length = 80 := by
    show (bytesToHex randBytes).length = 80
    rw [bytesToHex_length, hlen]
  refine ⟨hraw, hashToken_length _, fun heq => ?_, rfl⟩
  have h1 := congrArg String.length heq
  rw [hashToken_length, hraw] at h1
  exact absurd h1 (by omega)

/-- C9 witness: evaluated at a concrete 40-byte random draw. -/
theorem c9_witness :
    (List.replicate 40 7).length = 40 ∧
    ((generateRefreshTokenValue (List.replicate 40 7)).length = 80 ∧
     (hashToken (generateRefreshTokenValue (List.replicate 40 7))).length = 64 ∧
     hashToken (generateRefreshTokenValue (List.replicate 40 7)) ≠
       generateRefreshTokenValue (List.replicate 40 7) ∧
     attachRefreshToken 0 (generateRefreshTokenValue (List.replicate 40 7)) [] =
       [] ++ [⟨hashToken (generateRefreshTokenValue (List.replicate 40 7)),
               0 + REFRESH_TOKEN_TTL_DAYS * DAY_IN_MS⟩]) :=
  ⟨by decide, c9_stored_digest_never_raw (List.replicate 40 7) 0 [] (by decide)⟩

/-- C1: the code violates the bound — `enforceTokenLimit` runs before the new
entry is attached, so six issuances against a fresh user leave six stored
entries (`MAX_REFRESH_TOKENS + 1`), and a seventh still leaves six. -/
theorem c1_six_logins_store_six :
    MAX_REFRESH_TOKENS = 5 ∧
    (issueN 0 [[0], [1], [2], [3], [4], [5]]
        ⟨1, "A", "a@x.com", "p", []⟩).refreshTokens.length = 6 ∧
    (issueN 0 [[0], [1], [2], [3], [4], [5], [6]]
        ⟨1, "A", "a@x.com", "p", []⟩).refreshTokens.length = 6 := by decide

/-- C2: when the digest of submitted token `t1` matches a non-expired entry of
the user the lookup finds (and no other user holds that digest), a successful
refresh answers 200, leaves no entry with `digest(t1)` anywhere in the store,
and resubmitting `t1` fails with 401 "Invalid refresh token" without mutation.
The freshly drawn replacement token is assumed not to collide with `t1`'s
digest, which the spec's collision-resistance contract for `digest` grants. -/
theorem c2_refresh_single_use (db : List User) (t1 : String) (now now2 : Int)
    (rand rand2 : List Nat) (u : User) (en : TokenEntry)
    (ht1 : t1 ≠ "")
    (hfind : findUserByTokenHash db (hashToken t1) = some u)
    (hentry : u.refreshTokens.find? (fun e => e.token == hashToken t1) = some en)
    (hlive : now < en.expiresAt)
    (huniq : ∀ v ∈ db, v.id ≠ u.id → ∀ e ∈ v.refreshTokens, e.token ≠ hashToken t1)
    (hrand : hashToken (generateRefreshTokenValue rand) ≠ hashToken t1) :
    (refreshAccessToken now rand db (some t1)).2.status = 200 ∧
    dbHasHash (refreshAccessToken now rand db (some t1)).1 (hashToken t1) = false ∧
    refreshAccessToken now2 rand2 (refreshAccessToken now rand db (some t1)).1 (some t1) =
      ((refreshAccessToken now rand db (some t1)).1,
       msgResponse 401 "Invalid refresh token") := by
  have hred := refreshAccessToken_success now rand db t1 u en ht1 hfind hentry hlive
  have hu2 : ∀ e ∈ ({ u with refreshTokens :=
      (removeRefreshToken (hashToken t1) u.refreshTokens).1 } : User).refreshTokens,
      e.token ≠ hashToken t1 := fun e he => removeRefreshToken_token_ne he
  have hu3 := issueTokensForUser_token_ne now hu2 hrand
  have hothers : ∀ v ∈ db, v.id ≠ ((issueTokensForUser now rand ({ u with refreshTokens :=
      (removeRefreshToken (hashToken t1) u.refreshTokens).1 } : User)).1).id →
      ∀ e ∈ v.refreshTokens, e.token ≠ hashToken t1 :=
    fun v hv hne => huniq v hv hne
  have hsave := saveUser_token_ne hothers hu3
  refine ⟨by rw [hred]; rfl, by rw [hred]; exact dbHasHash_eq_false_iff.2 hsave, ?_⟩
  rw [hred]
  exact refreshAccessToken_no_match now2 rand2 _ t1 ht1 hsave

/-- C2 witness: one user holding the digest of "tok1", alive at time 0. -/
theorem c2_witness :
    (0 : Int) < 100 ∧
    hashToken (generateRefreshTokenValue [0]) ≠ hashToken "tok1" ∧
    ((refreshAccessToken 0 [0]
        [⟨1, "A", "a@x.com", "p", [⟨hashToken "tok1", 100⟩]⟩] (some "tok1")).2.status = 200 ∧
     dbHasHash (refreshAccessToken 0 [0]
        [⟨1, "A", "a@x.com", "p", [⟨hashToken "tok1", 100⟩]⟩] (some "tok1")).1
        (hashToken "tok1") = false ∧
     refreshAccessToken 7 [1]
        (refreshAccessToken 0 [0]
          [⟨1, "A", "a@x.com", "p", [⟨hashToken "tok1", 100⟩]⟩] (some "tok1")).1 (some "tok1") =
       ((refreshAccessToken 0 [0]
          [⟨1, "A", "a@x.com", "p", [⟨hashToken "tok1", 100⟩]⟩] (some "tok1")).1,
        msgResponse 401 "Invalid refresh token")) :=
  ⟨by decide, by decide,
   c2_refresh_single_use [⟨1, "A", "a@x.com", "p", [⟨hashToken "tok1", 100⟩]⟩]
     "tok1" 0 7 [0] [1] ⟨1, "A", "a@x.com", "p", [⟨hashToken "tok1", 100⟩]⟩
     ⟨hashToken "tok1", 100⟩ (by decide) (by decide) (by decide) (by decide)
     (by decide) (by decide)⟩

/-- C3: when the digest matches an entry whose `expiresAt` has passed, the
refresh attempt removes the entry anyway (the persisted user document keeps
only the non-matching entries) and answers 401 "Refresh token expired". -/
theorem c3_expired_refresh_cleanup (now : Int) (rand : List Nat) (db : List User)
    (t : String) (u : User) (en : TokenEntry) (ht : t ≠ "")
    (hfind : findUserByTokenHash db (hashToken t) = some u)
    (hentry : u.refreshTokens.find? (fun e => e.token == hashToken t) = some en)
    (hexp : en.expiresAt ≤ now) :
    (refreshAccessToken now rand db (some t)).2.status = 401 ∧
    (refreshAccessToken now rand db (some t)).2.message = "Refresh token expired" ∧
    (refreshAccessToken now rand db (some t)).1 =
      saveUser db { u with refreshTokens :=
        u.refreshTokens.filter (fun e => !(e.token == hashToken t)) } ∧
    (∀ v ∈ (refreshAccessToken now rand db (some t)).1, v.id = u.id →
      ∀ e ∈ v.refreshTokens, e.token ≠ hashToken t) := by
  have hred := refreshAccessToken_expired now rand db t u en ht hfind hentry hexp
  refine ⟨by rw [hred]; rfl, by rw [hred]; rfl, by rw [hred]; rfl, ?_⟩
  intro v hv hid e he
  rw [hred] at hv
  simp only [saveUser, List.mem_map] at hv
  rcases hv with ⟨w, hw, rfl⟩
  by_cases hwid : w.id = u.id
  · rw [if_pos (by simpa using hwid)] at he
    exact removeRefreshToken_token_ne he
  · rw [if_neg (by simpa using hwid)] at hid
    exact absurd hid hwid

/-- C3 witness: a single stored entry for "tokx" that expired at 5, submitted
at time 10. -/
theorem c3_witness :
    (5 : Int) ≤ 10 ∧
    ((refreshAccessToken 10 [0]
        [⟨1, "A", "a@x.com", "p", [⟨hashToken "tokx", 5⟩]⟩] (some "tokx")).2.status = 401 ∧
     (refreshAccessToken 10 [0]
        [⟨1, "A", "a@x.com", "p", [⟨hashToken "tokx", 5⟩]⟩] (some "tokx")).2.message =
       "Refresh token expired" ∧
     (refreshAccessToken 10 [0]
        [⟨1, "A", "a@x.com", "p", [⟨hashToken "tokx", 5⟩]⟩] (some "tokx")).1 =
       saveUser [⟨1, "A", "a@x.com", "p", [⟨hashToken "tokx", 5⟩]⟩]
         ⟨1, "A", "a@x.com", "p",
           List.filter (fun e => !(e.token == hashToken "tokx"))
             [⟨hashToken "tokx", 5⟩]⟩ ∧
     (∀ v ∈ (refreshAccessToken 10 [0]
          [⟨1, "A", "a@x.com", "p", [⟨hashToken "tokx", 5⟩]⟩] (some "tokx")).1, v.id = 1 →
        ∀ e ∈ v.refreshTokens, e.token ≠ hashToken "tokx")) :=
  ⟨by decide,
   c3_expired_refresh_cleanup 10 [0] [⟨1, "A", "a@x.com", "p", [⟨hashToken "tokx", 5⟩]⟩]
     "tokx" ⟨1, "A", "a@x.com", "p", [⟨hashToken "tokx", 5⟩]⟩ ⟨hashToken "tokx", 5⟩
     (by decide) (by decide) (by decide) (by decide)⟩

/-- C4: when no stored entry of any user matches the submitted token's digest,
refresh mutates nothing — the store comes back exactly as it was — and answers
401 "Invalid refresh token". -/
theorem c4_refresh_no_match_no_mutation (now : Int) (rand : List Nat)
    (db : List User) (t : String) (ht : t ≠ "")
    (hno : ∀ v ∈ db, ∀ e ∈ v.refreshTokens, e.token ≠ hashToken t) :
    refreshAccessToken now rand db (some t) =
      (db, msgResponse 401 "Invalid refresh token") ∧
    (refreshAccessToken now rand db (some t)).1 = db ∧
    (refreshAccessToken now rand db (some t)).2.status = 401 := by
  have h := refreshAccessToken_no_match now rand db t ht hno
  exact ⟨h, by rw [h], by rw [h]; rfl⟩

/-- C4 witness: a store holding only the digest of "issued", probed with the
never-issued value "never-issued". -/
theorem c4_witness :
    (∀ v ∈ [(⟨1, "A", "a@x.com", "p", [⟨hashToken "issued", 100⟩]⟩ : User)],
      ∀ e ∈ v.refreshTokens, e.token ≠ hashToken "never-issued") ∧
    refreshAccessToken 0 [0] [⟨1, "A", "a@x.com", "p", [⟨hashToken "issued", 100⟩]⟩]
        (some "never-issued") =
      ([⟨1, "A", "a@x.com", "p", [⟨hashToken "issued", 100⟩]⟩],
       msgResponse 401 "Invalid refresh token") :=
  ⟨by decide,
   (c4_refresh_no_match_no_mutation 0 [0]
     [⟨1, "A", "a@x.com", "p", [⟨hashToken "issued", 100⟩]⟩] "never-issued"
     (by decide) (by decide)).1⟩

/-- C5: logout with a present token answers 200 whether or not a match exists;
the first call removes every entry carrying the digest (assuming, as the store
invariant grants, that at most one user holds a given digest), and the second
call with the same token performs no storage mutation and still answers 200. -/
theorem c5_logout_idempotent (db : List User) (t : String) (ht : t ≠ "")
    (huniq : ∀ v ∈ db, ∀ w ∈ db,
      v.refreshTokens.any (fun e => e.token == hashToken t) = true →
      w.refreshTokens.any (fun e => e.token == hashToken t) = true → v.id = w.id) :
    (logout db (some t)).2 = msgResponse 200 "Logged out successfully" ∧
    dbHasHash (logout db (some t)).1 (hashToken t) = false ∧
    logout (logout db (some t)).1 (some t) =
      ((logout db (some t)).1, msgResponse 200 "Logged out successfully") := by
  cases hfind : findUserByTokenHash db (hashToken t) with
  | none =>
    have hred := logout_no_match db t ht hfind
    have hfind2 : db.find?
        (fun v => v.refreshTokens.any (fun e => e.token == hashToken t)) = none := hfind
    have hfree : ∀ v ∈ db, ∀ e ∈ v.refreshTokens, e.token ≠ hashToken t := by
      intro v hv e he htok
      have hnp := List.find?_eq_none.1 hfind2 v hv
      apply hnp
      show v.refreshTokens.any (fun e => e.token == hashToken t) = true
      simp only [List.any_eq_true]
      exact ⟨e, he, by simp [htok]⟩
    rw [hred]
    exact ⟨rfl, dbHasHash_eq_false_iff.2 hfree, logout_no_match db t ht hfind⟩
  | some u =>
    have hred := logout_found db t u ht hfind
    have hfind2 : db.find?
        (fun v => v.refreshTokens.any (fun e => e.token == hashToken t)) = some u := hfind
    have hu_mem : u ∈ db := List.mem_of_find?_eq_some hfind2
    have hu_any0 := List.find?_some hfind2
    have hu_any : u.refreshTokens.any (fun e => e.token == hashToken t) = true := hu_any0
    have hex : ∃ e ∈ u.refreshTokens, e.token = hashToken t := by
      simpa using hu_any
    have hsnd := removeRefreshToken_snd_true hex
    have hu2 : ∀ e ∈ ({ u with refreshTokens :=
        (removeRefreshToken (hashToken t) u.refreshTokens).1 } : User).refreshTokens,
        e.token ≠ hashToken t := fun e he => removeRefreshToken_token_ne he
    have hothers : ∀ v ∈ db, v.id ≠ ({ u with refreshTokens :=
        (removeRefreshToken (hashToken t) u.refreshTokens).1 } : User).id →
        ∀ e ∈ v.refreshTokens, e.token ≠ hashToken t := by
      intro v hv hne e he htok
      have hva : v.refreshTokens.any (fun x => x.token == hashToken t) = true := by
        simp only [List.any_eq_true]
        exact ⟨e, he, by simp [htok]⟩
      exact hne (huniq v hv u hu_mem hva hu_any)
    have hsave := saveUser_token_ne hothers hu2
    have hfree : ∀ v ∈ saveUser db { u with refreshTokens :=
        (removeRefreshToken (hashToken t) u.refreshTokens).1 },
        ∀ e ∈ v.refreshTokens, e.token ≠ hashToken t := hsave
    rw [hred, if_pos hsnd]
    exact ⟨rfl, dbHasHash_eq_false_iff.2 hfree,
      logout_no_match _ t ht (findUserByTokenHash_eq_none hfree)⟩

/-- C5 witness: one user holding the digest of "sess"; both calls evaluated. -/
theorem c5_witness :
    ("sess" : String) ≠ "" ∧
    ((logout [⟨1, "A", "a@x.com", "p", [⟨hashToken "sess", 100⟩]⟩] (some "sess")).2 =
       msgResponse 200 "Logged out successfully" ∧
     dbHasHash (logout [⟨1, "A", "a@x.com", "p", [⟨hashToken "sess", 100⟩]⟩]
        (some "sess")).1 (hashToken "sess") = false ∧
     logout (logout [⟨1, "A", "a@x.com", "p", [⟨hashToken "sess", 100⟩]⟩]
        (some "sess")).1 (some "sess") =
       ((logout [⟨1, "A", "a@x.com", "p", [⟨hashToken "sess", 100⟩]⟩]
          (some "sess")).1, msgResponse 200 "Logged out successfully")) :=
  ⟨by decide,
   c5_logout_idempotent [⟨1, "A", "a@x.com", "p", [⟨hashToken "sess", 100⟩]⟩]
     "sess" (by decide) (by decide)⟩

/-- C10: on every signup, login, or refresh response the legacy `token` field
and `accessToken` are equal (both absent on failures), and on a successful
response both are present — carrying the same signed access token. -/
theorem c10_token_mirrors_accessToken (now : Int) (rand : List Nat) (newId : Nat)
    (db : List User) (name email password rt : Option String) :
    ((signup now rand newId db name email password).2.token =
      (signup now rand newId db name email password).2.accessToken) ∧
    ((signup now rand newId db name email password).2.status = 201 →
      (signup now rand newId db name email password).2.token.isSome = true) ∧
    ((login now rand db email password).2.token =
      (login now rand db email password).2.accessToken) ∧
    ((login now rand db email password).2.status = 200 →
      (login now rand db email password).2.token.isSome = true) ∧
    ((refreshAccessToken now rand db rt).2.token =
      (refreshAccessToken now rand db rt).2.accessToken) ∧
    ((refreshAccessToken now rand db rt).2.status = 200 →
      (refreshAccessToken now rand db rt).2.token.isSome = true) := by
  refine ⟨?_, ?_, ?_, ?_, ?_, ?_⟩
  · simp only [signup]
    repeat' split
    all_goals rfl
  · simp only [signup]
    repeat' split
    all_goals intro h
    all_goals first | rfl | simp [msgResponse] at h
  · simp only [login]
    repeat' split
    all_goals rfl
  · simp only [login]
    repeat' split
    all_goals intro h
    all_goals first | rfl | simp [msgResponse] at h
  · simp only [refreshAccessToken]
    repeat' split
    all_goals rfl
  · simp only [refreshAccessToken]
    repeat' split
    all_goals intro h
    all_goals first | rfl | simp [msgResponse] at h

/-- C10 witness: a successful concrete signup carries the same access token in
both fields. -/
theorem c10_witness :
    (signup 0 [0] 1 [] (some "A") (some "a@x.com") (some "p")).2.status = 201 ∧
    (signup 0 [0] 1 [] (some "A") (some "a@x.com") (some "p")).2.token =
      (signup 0 [0] 1 [] (some "A") (some "a@x.com") (some "p")).2.accessToken ∧
    (signup 0 [0] 1 [] (some "A") (some "a@x.com") (some "p")).2.token.isSome = true :=
  ⟨by decide,
   (c10_token_mirrors_accessToken 0 [0] 1 [] (some "A") (some "a@x.com")
     (some "p") none).1,
   (c10_token_mirrors_accessToken 0 [0] 1 [] (some "A") (some "a@x.com")
     (some "p") none).2.1 (by decide)⟩

end GoalsAuth
